import Mathlib

/-!
Shallow embedding of the imos-toolbox release-engineering scripts
(`build.py` and `get_testfiles.py`) and proofs about the claims of the
specification.  Python strings are modelled by `String`, Python lists by
`List`, filesystem paths by their component lists (`List String`), and the
dict returned by `git_info` by the structure `RepositoryState`.
-/

namespace Imos

/-! ## String helpers mirroring the Python string operations used -/

/-- Tests whether `pat` occurs at the beginning of `s` (character lists). -/
def startsWithChars : List Char → List Char → Bool
  | [], _ => true
  | _ :: _, [] => false
  | a :: as, b :: bs => a == b && startsWithChars as bs

/-- Tests whether `pat` occurs as a contiguous run inside `s` (character lists). -/
def containsSub (pat : List Char) : List Char → Bool
  | [] => pat.isEmpty
  | c :: rest => startsWithChars pat (c :: rest) || containsSub pat rest

/-- Python `pat in s` substring test. -/
def strContains (s pat : String) : Bool :=
  containsSub pat.data s.data

/-- Index of the last occurrence of a dot in a character list, if any. -/
def lastDotIdxAux : List Char → Nat → Option Nat → Option Nat
  | [], _, acc => acc
  | c :: rest, i, acc => lastDotIdxAux rest (i + 1) (if c == '.' then some i else acc)

/-- The `pathlib` property `suffix` of a file name: the substring from the last
dot onwards, provided that dot is neither the first nor the last character;
otherwise the empty string. -/
def pySuffix (name : String) : String :=
  let cs := name.data
  match lastDotIdxAux cs 0 none with
  | none => ""
  | some i => if 0 < i && i + 1 < cs.length then String.mk (cs.drop i) else ""

/-! ## Paths

A path is its list of components; `as_posix` joins them with slashes, as the
`pathlib` method of the same name does for the relative paths produced by
`Path(root).glob`. -/

/-- The slash-joined rendering of a path, as in `pathlib.PurePath.as_posix`. -/
def as_posix (p : List String) : String :=
  String.intercalate "/" p

/-- Rendering of the parent of a path: drop the final component; a path with
fewer than two components has the degenerate parent rendering used by
`pathlib` for relative single-component paths. -/
def parent_as_posix (p : List String) : String :=
  if p.length ≤ 1 then "." else as_posix p.dropLast

/-- Final component of a path (`x.parts[-1]` / `x.name`). -/
def lastPart (p : List String) : String :=
  p.getLastD ""

/-! ## `git_info` (build.py lines 98-142) -/

/-- The fields of the dict returned by `git_info` that come straight from the
repository, before the derived entries are filled. -/
structure RepositoryState where
  username : String
  is_dirty : Bool
  branch : String
  tag : String
  modified_files : List String
  staged_files : List String
  untracked_files : List String

/-- Splits a character list at every occurrence of the separator character,
as Python `str.split` does with a one-character separator. -/
def splitChar (c : Char) : List Char → List (List Char)
  | [] => [[]]
  | x :: xs =>
    match splitChar c xs with
    | [] => if x == c then [[], []] else [[x]]
    | h :: t => if x == c then [] :: h :: t else (x :: h) :: t

/-- Python `s.split("-")`. -/
def pySplitDash (s : String) : List String :=
  (splitChar '-' s.data).map String.mk

/-- `info["is_tag_release"] = len(info["tag"].split("-")) < 3`. -/
def is_tag_release (s : RepositoryState) : Bool :=
  decide ((pySplitDash s.tag).length < 3)

/-- `info["is_clean"] = not info["is_dirty"] and not info["staged_files"]`
(a Python list is falsy exactly when it is empty). -/
def is_clean (s : RepositoryState) : Bool :=
  !s.is_dirty && s.staged_files.isEmpty

/-- `info["is_official_release"] = info["is_tag_release"] and info["is_clean"]`. -/
def is_official_release (s : RepositoryState) : Bool :=
  is_tag_release s && is_clean s

/-- The `version` entry built by `git_info` (build.py lines 131-141): the bare
tag for an official release, otherwise branch, user and tag joined by `|`
with a trailing `|dirty` marker exactly when the tree is dirty. -/
def version (s : RepositoryState) : String :=
  if is_official_release s then s.tag
  else s.branch ++ "|" ++ s.username ++ "|" ++ s.tag ++
    (if s.is_dirty then "|dirty" else "")

/-! Concrete repository states used to instantiate the theorems. -/

/-- A clean checkout sitting exactly on a tag. -/
def sOfficial : RepositoryState :=
  { username := "alice", is_dirty := false, branch := "master", tag := "v2.6.7",
    modified_files := [], staged_files := [], untracked_files := [] }

/-- A dirty feature-branch checkout away from the nearest tag. -/
def sDev : RepositoryState :=
  { username := "alice", is_dirty := true, branch := "feature-x",
    tag := "v2.3-4-gabcdef",
    modified_files := ["m.m"], staged_files := [], untracked_files := [] }

/-- C1: for every RepositoryState, the version computed by `git_info` is
exactly the tag when `is_official_release` holds; otherwise it is the branch,
user and tag joined in that order by the `|` separator, with the `|dirty`
marker appended exactly when `is_dirty` holds.  The structural equality in the
second conjunct yields the containment-in-order of the three segments and the
presence of the dirty marker if and only if the tree is dirty. -/
theorem version_official_and_mashup (s : RepositoryState) :
    (is_official_release s = true → version s = s.tag) ∧
    (is_official_release s = false →
      version s = s.branch ++ "|" ++ s.username ++ "|" ++ s.tag ++
        (if s.is_dirty then "|dirty" else "")) := by
  constructor <;> intro h <;> simp [version, h]

/-- Instantiation of `version_official_and_mashup` at the two concrete states. -/
theorem version_official_and_mashup_witness :
    version sOfficial = "v2.6.7" ∧
    version sDev = "feature-x|alice|v2.3-4-gabcdef|dirty" :=
  ⟨(version_official_and_mashup sOfficial).1 (by decide),
   (version_official_and_mashup sDev).2 (by decide)⟩

/-! ## Manifest collection (build.py lines 145-246)

The recursive `glob` walk of `find_files_and_folders` is modelled by a file
tree given as the lists of folder paths and file paths it would discover;
the function itself keeps exactly the filtering expressed in the list
comprehensions of build.py. -/

/-- A file tree: the folder paths and file paths under the root. -/
structure Tree where
  folders : List (List String)
  files : List (List String)

/-- Filter on folders in `find_files_and_folders` (build.py lines 148-155). -/
def folderKeep (p : List String) : Bool :=
  !strContains (as_posix p) "/." && !strContains (as_posix p) "/dist/" &&
    !strContains (as_posix p) "/snapshot/"

/-- Filter on files in `find_files_and_folders` (build.py lines 156-163);
note the file case tests the bare `/snapshot` prefix, not `/snapshot/`. -/
def fileKeep (p : List String) : Bool :=
  !strContains (as_posix p) "/." && !strContains (as_posix p) "/dist/" &&
    !strContains (as_posix p) "/snapshot"

/-- `find_files_and_folders` (build.py lines 145-164). -/
def find_files_and_folders (t : Tree) : List (List String) × List (List String) :=
  (t.folders.filter folderKeep, t.files.filter fileKeep)

/-- Membership test of `items["path_folders"]` (build.py lines 173-177):
no `/+` in the rendering and no `testfiles` component. -/
def path_folderPred (p : List String) : Bool :=
  !strContains (as_posix p) "/+" && !p.contains "testfiles"

/-- Membership test of `items["standard_classes"]` (build.py lines 179-183). -/
def standard_classPred (p : List String) : Bool :=
  strContains (as_posix p) "/@" && !strContains (parent_as_posix p) "/+"

/-- Membership test of `items["standard_packages"]` (build.py lines 184-188). -/
def standard_packagePred (p : List String) : Bool :=
  strContains (as_posix p) "/+" && !strContains (parent_as_posix p) "/+"

/-- Membership test of `items["standard_mfiles"]` (build.py lines 190-196). -/
def standard_mfilePred (p : List String) : Bool :=
  pySuffix (lastPart p) == ".m" && lastPart p != "tmpbuild.m" &&
    !strContains (parent_as_posix p) "/+"

/-- Membership test of `items["standard_matfiles"]` (build.py lines 197-202). -/
def standard_matfilePred (p : List String) : Bool :=
  !strContains (as_posix p) "data/testfiles/" &&
    (pySuffix (lastPart p) == ".mat" && !strContains (parent_as_posix p) "/+")

/-- Membership test of `items["standard_miscfiles"]` (build.py lines 204-218). -/
def standard_miscfilePred (p : List String) : Bool :=
  !strContains (as_posix p) "data/testfiles/" &&
    pySuffix (lastPart p) != ".mat" &&
    pySuffix (lastPart p) != ".m" &&
    pySuffix (lastPart p) != ".log" &&
    pySuffix (lastPart p) != ".nc" &&
    pySuffix (lastPart p) != ".pdf" &&
    pySuffix (lastPart p) != ".py" &&
    pySuffix (lastPart p) != ".sh" &&
    pySuffix (lastPart p) != ".jar" &&
    !strContains (as_posix p) "imosToolbox_" &&
    !strContains (as_posix p) ".git"

/-- The dict returned by `find_items`: every category is a list of
slash-rendered path strings, as the comprehensions build `x.as_posix()`. -/
structure Items where
  path_folders : List String
  standard_classes : List String
  standard_packages : List String
  standard_mfiles : List String
  standard_matfiles : List String
  standard_miscfiles : List String

/-- `find_items` (build.py lines 167-219). -/
def find_items (t : Tree) : Items :=
  let all_folders := (find_files_and_folders t).1
  let all_files := (find_files_and_folders t).2
  { path_folders := (all_folders.filter path_folderPred).map as_posix
    standard_classes := (all_folders.filter standard_classPred).map as_posix
    standard_packages := (all_folders.filter standard_packagePred).map as_posix
    standard_mfiles := (all_files.filter standard_mfilePred).map as_posix
    standard_matfiles := (all_files.filter standard_matfilePred).map as_posix
    standard_miscfiles := (all_files.filter standard_miscfilePred).map as_posix }

/-! ## `get_required_files` (build.py lines 222-246) -/

/-- The untracked-file removal loop (build.py lines 230-238): for each
untracked path, remove its first occurrence from the list when present, which
is exactly `List.erase`. -/
def removeUntracked (untracked : List String) (l : List String) : List String :=
  untracked.foldl (fun acc u => acc.erase u) l

/-- `allmfiles` after the untracked-removal loop. -/
def strippedMfiles (t : Tree) (info : RepositoryState) : List String :=
  removeUntracked info.untracked_files (find_items t).standard_mfiles

/-- `allmatfiles` after the untracked-removal loop. -/
def strippedMatfiles (t : Tree) (info : RepositoryState) : List String :=
  removeUntracked info.untracked_files (find_items t).standard_matfiles

/-- `allmiscfiles` after the untracked-removal loop. -/
def strippedMiscfiles (t : Tree) (info : RepositoryState) : List String :=
  removeUntracked info.untracked_files (find_items t).standard_miscfiles

/-- The entry-point search predicate of build.py line 240:
`"imosToolbox.m" in file`. -/
def entryMatch (file : String) : Bool :=
  strContains file "imosToolbox.m"

/-- `get_required_files` (build.py lines 222-246).  The untracked files are
removed from the three file categories, the first source file whose rendering
contains `imosToolbox.m` is popped to the front, and the data files are the
mat-files followed by the misc-files.  `none` models the uncaught exception
raised at `mind[0]` when no source file matches the entry-point name (the
failure the spec calls `MissingEntryPointError`). -/
def get_required_files (t : Tree) (info : RepositoryState) :
    Option (List String × List String × List String) :=
  match (strippedMfiles t info).find? entryMatch with
  | none => none
  | some mentry =>
    some (mentry :: (strippedMfiles t info).eraseP entryMatch,
          strippedMatfiles t info ++ strippedMiscfiles t info,
          (find_items t).standard_packages)

/-! ## Concrete trees and states used by the manifest theorems -/

/-- A tree holding a class folder and a log file. -/
def tC2 : Tree :=
  ⟨[["repo"], ["repo", "code"], ["repo", "code", "@myclass"]], [["repo", "a.log"]]⟩

/-- A tree holding a package folder and the entry-point source file. -/
def tC3 : Tree :=
  ⟨[["repo"], ["repo", "+pkg"]], [["repo", "imosToolbox.m"]]⟩

/-- A repository state whose untracked list names the package folder of `tC3`. -/
def infoC3 : RepositoryState :=
  { username := "bob", is_dirty := false, branch := "master", tag := "v1",
    modified_files := [], staged_files := [], untracked_files := ["repo/+pkg"] }

/-- A tree with the entry-point file and one further source file. -/
def tW3 : Tree :=
  ⟨[["repo"]], [["repo", "imosToolbox.m"], ["repo", "a.m"]]⟩

/-- A repository state whose untracked list names the extra source file of `tW3`. -/
def infoW3 : RepositoryState :=
  { username := "bob", is_dirty := false, branch := "master", tag := "v1",
    modified_files := [], staged_files := [], untracked_files := ["repo/a.m"] }

/-- A repository state with nothing untracked. -/
def infoE : RepositoryState :=
  { username := "bob", is_dirty := false, branch := "master", tag := "v1",
    modified_files := [], staged_files := [], untracked_files := [] }

/-- A tree whose only source file does not match the entry-point name. -/
def tNoEntry : Tree :=
  ⟨[["repo"]], [["repo", "other.m"]]⟩

/-- A tree with a source file under the test-fixture directory. -/
def tC5 : Tree :=
  ⟨[["repo"]], [["repo", "data", "testfiles", "a.m"]]⟩

/-! ## C2: the classification is not a partition -/

/-- C2 counterexample: on the tree `tC2` the class folder
`repo/code/@myclass` is listed both in `path_folders` and in
`standard_classes` (so a path appears in two categories), while the
non-excluded file `repo/a.log` is listed in no file category at all (so the
union of the categories misses a non-excluded path). -/
theorem find_items_not_partition :
    (find_items tC2).path_folders.contains "repo/code/@myclass" = true ∧
    (find_items tC2).standard_classes.contains "repo/code/@myclass" = true ∧
    fileKeep ["repo", "a.log"] = true ∧
    (find_items tC2).standard_mfiles.contains "repo/a.log" = false ∧
    (find_items tC2).standard_matfiles.contains "repo/a.log" = false ∧
    (find_items tC2).standard_miscfiles.contains "repo/a.log" = false := by
  decide

/-- C2 amended: the three file categories of `find_items` are pairwise
disjoint — no file path satisfies two of the source-file, data-file and
miscellaneous-file classification predicates — while the folder categories
may overlap and some non-excluded paths fall into no category. -/
theorem file_category_preds_disjoint (p : List String) :
    (standard_mfilePred p && standard_matfilePred p) = false ∧
    (standard_mfilePred p && standard_miscfilePred p) = false ∧
    (standard_matfilePred p && standard_miscfilePred p) = false := by
  unfold standard_mfilePred standard_matfilePred standard_miscfilePred
  cases h1 : (pySuffix (lastPart p) == ".m") <;>
    cases h2 : (pySuffix (lastPart p) == ".mat") <;>
      simp [h1, h2, bne]
  exact absurd ((eq_of_beq h1).symm.trans (eq_of_beq h2)) (by decide)

/-! ## C3: removal of untracked paths -/

/-- Non-membership is preserved by the untracked-removal loop. -/
theorem not_mem_removeUntracked_of_not_mem (us : List String) :
    ∀ l : List String, ∀ a : String, a ∉ l → a ∉ removeUntracked us l := by
  induction us with
  | nil => intro l a h; exact h
  | cons u us ih =>
    intro l a h
    exact ih (l.erase u) a (fun hmem => h (List.mem_of_mem_erase hmem))

/-- An element of the untracked list is absent from the result of the
untracked-removal loop whenever the input list has no duplicates (true of the
file lists of a tree, whose paths are distinct). -/
theorem not_mem_removeUntracked (us : List String) :
    ∀ l : List String, ∀ u : String, u ∈ us → l.Nodup →
      u ∉ removeUntracked us l := by
  induction us with
  | nil => intro l u h; cases h
  | cons v vs ih =>
    intro l u hu hnd
    have hstep : removeUntracked (v :: vs) l = removeUntracked vs (l.erase v) := rfl
    rw [hstep]
    rcases List.mem_cons.mp hu with h | h
    · subst h
      refine not_mem_removeUntracked_of_not_mem vs (l.erase u) u ?_
      intro hmem
      exact ((hnd.mem_erase_iff.mp hmem).1) rfl
    · exact ih (l.erase v) u h (hnd.erase v)

/-- C3 amended: for every file tree whose category lists are duplicate-free,
every untracked path is removed from the returned source files and data
files (the mat-file and misc-file union); package folders are returned
untouched by the removal loop, as the counterexample shows. -/
theorem untracked_removed_from_mfiles_and_datafiles (t : Tree)
    (info : RepositoryState)
    (hm : (find_items t).standard_mfiles.Nodup)
    (hmat : (find_items t).standard_matfiles.Nodup)
    (hmisc : (find_items t).standard_miscfiles.Nodup)
    (u : String) (hu : u ∈ info.untracked_files)
    (mf df pk : List String)
    (h : get_required_files t info = some (mf, df, pk)) :
    u ∉ mf ∧ u ∉ df := by
  have humf : u ∉ strippedMfiles t info := not_mem_removeUntracked _ _ u hu hm
  have humat : u ∉ strippedMatfiles t info := not_mem_removeUntracked _ _ u hu hmat
  have humisc : u ∉ strippedMiscfiles t info := not_mem_removeUntracked _ _ u hu hmisc
  unfold get_required_files at h
  cases hfind : (strippedMfiles t info).find? entryMatch with
  | none => rw [hfind] at h; cases h
  | some e =>
    rw [hfind] at h
    have he : e ∈ strippedMfiles t info := List.mem_of_find?_eq_some hfind
    obtain ⟨hmf, hdf, _⟩ : mf = e :: (strippedMfiles t info).eraseP entryMatch ∧
        df = strippedMatfiles t info ++ strippedMiscfiles t info ∧
        pk = (find_items t).standard_packages := by
      injection h with h; injection h with h1 h2; injection h2 with h2 h3
      exact ⟨h1.symm, h2.symm, h3.symm⟩
    constructor
    · rw [hmf]
      intro hcons
      rcases List.mem_cons.mp hcons with rfl | htail
      · exact humf he
      · exact humf ((List.eraseP_sublist _).subset htail)
    · rw [hdf]
      intro happ
      rcases List.mem_append.mp happ with h1 | h2
      · exact humat h1
      · exact humisc h2

/-- C3 counterexample: on `tC3` with `infoC3`, the untracked path
`repo/+pkg` still appears among the returned package folders — the removal
loop of `get_required_files` never touches `allpackages`. -/
theorem untracked_package_not_removed :
    get_required_files tC3 infoC3 =
      some (["repo/imosToolbox.m"], [], ["repo/+pkg"]) ∧
    infoC3.untracked_files.contains "repo/+pkg" = true := by
  decide

/-- Instantiation of `untracked_removed_from_mfiles_and_datafiles` at `tW3`,
whose untracked source file `repo/a.m` disappears from the output. -/
theorem untracked_removed_witness :
    "repo/a.m" ∉ (["repo/imosToolbox.m"] : List String) ∧
    "repo/a.m" ∉ ([] : List String) :=
  untracked_removed_from_mfiles_and_datafiles tW3 infoW3
    (by decide) (by decide) (by decide) "repo/a.m" (by decide)
    ["repo/imosToolbox.m"] [] [] (by decide)

/-! ## C4: the entry point is first, and its absence is the only failure -/

/-- C4: the located entry-point file — the first source file whose rendering
contains `imosToolbox.m`, searched after untracked removal — is returned at
index 0 of the source-file sequence and satisfies the entry-point test;
when no source file matches, `get_required_files` fails (the
`MissingEntryPointError` of the spec, an uncaught `IndexError` at
`mind[0]` in build.py line 241); and the search succeeds exactly when such a
file exists. -/
theorem entry_point_first (t : Tree) (info : RepositoryState) :
    (∀ e, (strippedMfiles t info).find? entryMatch = some e →
      entryMatch e = true ∧
      get_required_files t info =
        some (e :: (strippedMfiles t info).eraseP entryMatch,
              strippedMatfiles t info ++ strippedMiscfiles t info,
              (find_items t).standard_packages)) ∧
    ((strippedMfiles t info).find? entryMatch = none →
      get_required_files t info = none) ∧
    (((strippedMfiles t info).find? entryMatch).isSome ↔
      ∃ f ∈ strippedMfiles t info, entryMatch f = true) := by
  refine ⟨?_, ?_, ?_⟩
  · intro e h
    refine ⟨List.find?_some h, ?_⟩
    unfold get_required_files
    rw [h]
  · intro h
    unfold get_required_files
    rw [h]
  · exact List.find?_isSome

/-- Instantiation of `entry_point_first`: on `tNoEntry` the collection fails,
and on `tW3` (with nothing untracked) the entry file heads the output. -/
theorem entry_point_first_witness :
    get_required_files tNoEntry infoE = none ∧
    (entryMatch "repo/imosToolbox.m" = true ∧
      get_required_files tW3 infoE =
        some (["repo/imosToolbox.m", "repo/a.m"], [], [])) :=
  ⟨(entry_point_first tNoEntry infoE).2.1 (by decide),
   (entry_point_first tW3 infoE).1 "repo/imosToolbox.m" (by decide)⟩

/-! ## C5: test-fixture paths are not fully excluded -/

/-- C5: on `tC5` the source file `repo/data/testfiles/a.m`, which lies under
the test-fixture directory, is classified into `standard_mfiles` — the
`data/testfiles/` exclusion of `find_items` applies only to the mat-file and
misc-file categories (and `testfiles` only to `path_folders`), contradicting
the stated guarantee and the docstring of `find_items` itself. -/
theorem testfiles_mfile_in_manifest :
    (find_items tC5).standard_mfiles.contains "repo/data/testfiles/a.m" = true ∧
    (find_items tC5).standard_mfiles = ["repo/data/testfiles/a.m"] := by
  decide

/-! ## The mcc build step (build.py lines 87-89 and 464-469) -/

/-- The value returned by `subprocess.run` with captured output. -/
structure CompletedProcess where
  returncode : Int
  stdout : String
  stderr : String

/-- Python truthiness of a `subprocess.CompletedProcess`: the class defines
neither `__bool__` nor `__len__`, so `bool(obj)` is `True` for every
instance, whatever the return code. -/
def pyTruthy (_ : CompletedProcess) : Bool :=
  true

/-- The per-command check of the mcc loop (build.py lines 467-469):
`ok = run(mcall); if not ok: raise Exception(f"{mcall} failed")`, modelled as
an `Except` whose error is the raised message. -/
def mcc_step (mcall : String) (result : CompletedProcess) : Except String Unit :=
  if !(pyTruthy result) then Except.error (mcall ++ " failed")
  else Except.ok ()

/-- C6: the mcc invocation check never raises, whatever the exit status —
in particular a process that exits with return code 1 and non-empty stderr
passes the `if not ok` test, because a `CompletedProcess` is always truthy.
The build therefore proceeds to the artifact copy after a failed compile,
and no error carrying the captured stderr is ever produced. -/
theorem mcc_nonzero_exit_not_fatal (mcall : String) (rc : Int)
    (out err : String) :
    mcc_step mcall ⟨rc, out, err⟩ = Except.ok () := by
  rfl

/-! ## Repository-state warnings (build.py lines 411-422) -/

/-- Guard of the untracked-files warning: `if not repo_info["untracked_files"]:`
prints the warning exactly when the list is empty. -/
def untracked_warning (info : RepositoryState) : Bool :=
  info.untracked_files.isEmpty

/-- Guard of the staged-changes warning: `if not repo_info["staged_files"]:`. -/
def staged_warning (info : RepositoryState) : Bool :=
  info.staged_files.isEmpty

/-- Guard of the modified-files warning: `if not repo_info["modified_files"]:`. -/
def modified_warning (info : RepositoryState) : Bool :=
  info.modified_files.isEmpty

/-- A repository state with untracked, staged and modified files all present. -/
def infoDirtyAll : RepositoryState :=
  { username := "alice", is_dirty := true, branch := "feature-x",
    tag := "v2.3-4-gabcdef",
    modified_files := ["m.m"], staged_files := ["s.m"],
    untracked_files := ["u.m"] }

/-- C9: the three warning guards are inverted.  On a state whose modified,
staged and untracked lists are all non-empty, none of the warnings is
printed, while on the all-clean state every warning is printed — the
opposite of warn-iff-non-empty.  (The block itself raises nothing, so the
dirty state is indeed never fatal.) -/
theorem repo_warnings_inverted :
    untracked_warning infoDirtyAll = false ∧
    staged_warning infoDirtyAll = false ∧
    modified_warning infoDirtyAll = false ∧
    untracked_warning infoE = true ∧
    staged_warning infoE = true ∧
    modified_warning infoE = true := by
  decide

/-! ## Fixture synchronisation (get_testfiles.py)

The network is modelled by an oracle giving the outcome of each download
call: the call may raise a client error (the `except ClientError: continue`
branch) or transfer the object, in which case the oracle also says whether
the transferred content then passes the md5 check against the remote digest. -/

/-- Outcome of one `client.download_file` call. -/
inductive AttemptOutcome where
  | clientError : AttemptOutcome
  | transferred : Bool → AttemptOutcome

/-- `DOWNLOAD_ATTEMPTS = 10` (get_testfiles.py line 25). -/
def DOWNLOAD_ATTEMPTS : Nat :=
  10

/-- The `while ntry < attempts` loop of `download_file` (get_testfiles.py
lines 111-127), returning the final value of `ntry`, which equals the number
of download calls performed: each iteration increments `ntry` and then makes
exactly one call.  The fuel argument starts at `attempts`; it never runs out
before the `while` condition fails, because `ntry` grows by one per
iteration. -/
def dlGo (o : Nat → AttemptOutcome) (c : Bool) (attempts : Nat) :
    Nat → Nat → Nat
  | 0, ntry => ntry
  | fuel + 1, ntry =>
    if ntry < attempts then
      match o (ntry + 1) with
      | AttemptOutcome.clientError => dlGo o c attempts fuel (ntry + 1)
      | AttemptOutcome.transferred ok =>
        if c then
          (if ok then ntry + 1 else dlGo o c attempts fuel (ntry + 1))
        else ntry + 1
    else ntry

/-- `download_file` (get_testfiles.py lines 104-132): runs the retry loop and
then returns `False` exactly when the final `ntry` equals `attempts`
(`if ntry == attempts: ... return False` / `return True`), paired here with
the number of download calls made. -/
def download_file (o : Nat → AttemptOutcome) (c : Bool) (attempts : Nat) :
    Nat × Bool :=
  let n := dlGo o c attempts attempts 0
  (n, !(n == attempts))

/-- `should_skip_file` (get_testfiles.py lines 87-101): skip only when the
file exists locally, the digest is checkable, and the digests agree. -/
def should_skip_file (ex : Bool) (do_md5_check : Bool) (md5_same : Bool) : Bool :=
  if ex then
    (if do_md5_check then (if md5_same then true else false) else false)
  else false

/-- One remote object as the main loop sees it: whether a local file exists
at the destination, whether `need_md5_check` produced a digest, whether the
local content matches that digest, and the outcome oracle of its download
calls. -/
structure SyncItem where
  exists_local : Bool
  do_md5_check : Bool
  local_matches : Bool
  oracle : Nat → AttemptOutcome

/-- The per-object body of the main loop (get_testfiles.py lines 162-170):
when the skip check passes nothing is downloaded, otherwise `download_file`
runs; the pair carries the download-call count and the `download_file`
verdict (which the caller discards). -/
def syncObject (it : SyncItem) : Nat × Bool :=
  if should_skip_file it.exists_local it.do_md5_check it.local_matches then
    (0, true)
  else download_file it.oracle it.do_md5_check DOWNLOAD_ATTEMPTS

/-- The whole `__main__` run (get_testfiles.py lines 155-171): every object
is processed in turn, the `download_file` results are ignored, and the
script falls through to `print(f'SUCCESS syncing ...')`, terminating with
exit status 0 whatever happened. -/
def syncMain (items : List SyncItem) : List (Nat × Bool) × Nat :=
  (items.map syncObject, 0)

/-- Total number of download calls a run performs. -/
def totalDownloadCalls (items : List SyncItem) : Nat :=
  (items.map (fun it => (syncObject it).1)).sum

/-- The retry loop never pushes `ntry` beyond `attempts`. -/
theorem dlGo_le (o : Nat → AttemptOutcome) (c : Bool) (attempts : Nat) :
    ∀ fuel ntry, ntry ≤ attempts → dlGo o c attempts fuel ntry ≤ attempts := by
  intro fuel
  induction fuel with
  | zero => intro ntry h; exact h
  | succ fuel ih =>
    intro ntry h
    show (if ntry < attempts then
      match o (ntry + 1) with
      | AttemptOutcome.clientError => dlGo o c attempts fuel (ntry + 1)
      | AttemptOutcome.transferred ok =>
        if c then
          (if ok then ntry + 1 else dlGo o c attempts fuel (ntry + 1))
        else ntry + 1
      else ntry) ≤ attempts
    by_cases hlt : ntry < attempts
    · simp only [hlt, if_true]
      cases o (ntry + 1) with
      | clientError => exact ih (ntry + 1) hlt
      | transferred ok =>
        cases c with
        | false => simpa using hlt
        | true =>
          cases ok with
          | true => simpa using hlt
          | false => simpa using ih (ntry + 1) hlt
    · simpa [hlt] using h

/-- Under a persistently mismatching oracle the loop uses all its fuel. -/
theorem dlGo_persistent_mismatch (o : Nat → AttemptOutcome)
    (ho : ∀ n, o n = AttemptOutcome.transferred false) (attempts : Nat) :
    ∀ fuel ntry, ntry + fuel = attempts →
      dlGo o true attempts fuel ntry = attempts := by
  intro fuel
  induction fuel with
  | zero => intro ntry h; simpa using h
  | succ fuel ih =>
    intro ntry h
    have hlt : ntry < attempts := by omega
    show (if ntry < attempts then
      match o (ntry + 1) with
      | AttemptOutcome.clientError => dlGo o true attempts fuel (ntry + 1)
      | AttemptOutcome.transferred ok =>
        if true then
          (if ok then ntry + 1 else dlGo o true attempts fuel (ntry + 1))
        else ntry + 1
      else ntry) = attempts
    rw [ho (ntry + 1)]
    simp only [hlt, if_true]
    exact ih (ntry + 1) (by omega)

/-- C7 amended: each object receives at most `DOWNLOAD_ATTEMPTS` (10)
download calls; a verifiable object whose every transfer fails the digest
check consumes exactly `DOWNLOAD_ATTEMPTS` calls and makes `download_file`
report failure (`False`); but the run as a whole ignores that verdict and
always terminates with exit status 0, reporting success. -/
theorem download_retry_bounded (o : Nat → AttemptOutcome) (c : Bool)
    (items : List SyncItem) :
    (download_file o c DOWNLOAD_ATTEMPTS).1 ≤ DOWNLOAD_ATTEMPTS ∧
    ((∀ n, o n = AttemptOutcome.transferred false) → c = true →
      download_file o c DOWNLOAD_ATTEMPTS = (DOWNLOAD_ATTEMPTS, false)) ∧
    (syncMain items).2 = 0 := by
  refine ⟨dlGo_le o c DOWNLOAD_ATTEMPTS DOWNLOAD_ATTEMPTS 0 (Nat.zero_le _), ?_, rfl⟩
  intro ho hc
  subst hc
  have hn : dlGo o true DOWNLOAD_ATTEMPTS DOWNLOAD_ATTEMPTS 0 = DOWNLOAD_ATTEMPTS :=
    dlGo_persistent_mismatch o ho DOWNLOAD_ATTEMPTS DOWNLOAD_ATTEMPTS 0 rfl
  unfold download_file
  rw [hn]
  simp

/-- An object that always transfers but never passes the digest check. -/
def badItem : SyncItem :=
  ⟨true, true, false, fun _ => AttemptOutcome.transferred false⟩

/-- C7 counterexample: the object `badItem` exhausts all 10 attempts and its
`download_file` returns the failure verdict, yet the run over it exits with
status 0 — the success report — instead of the non-zero termination the
claim requires. -/
theorem retry_exhaustion_not_fatal :
    syncObject badItem = (10, false) ∧ (syncMain [badItem]).2 = 0 := by
  constructor <;> rfl

/-- Instantiation of `download_retry_bounded` at the persistently
mismatching oracle. -/
theorem download_retry_bounded_witness :
    (download_file (fun _ => AttemptOutcome.transferred false) true
      DOWNLOAD_ATTEMPTS).1 ≤ DOWNLOAD_ATTEMPTS ∧
    download_file (fun _ => AttemptOutcome.transferred false) true
      DOWNLOAD_ATTEMPTS = (DOWNLOAD_ATTEMPTS, false) :=
  ⟨(download_retry_bounded (fun _ => AttemptOutcome.transferred false) true []).1,
   (download_retry_bounded (fun _ => AttemptOutcome.transferred false) true []).2.1
    (fun _ => rfl) rfl⟩

/-! ## C8: idempotence of the syncer -/

/-- C8: an object whose digest is verifiable and matches the existing local
file receives zero download calls, and a run over a list of such objects
performs zero download calls in total — re-running the syncer over an
already-synced tree does digest comparisons only. -/
theorem synced_objects_not_downloaded (it : SyncItem) (items : List SyncItem)
    (h1 : it.exists_local = true) (h2 : it.do_md5_check = true)
    (h3 : it.local_matches = true)
    (hall : ∀ x ∈ items, x.exists_local = true ∧ x.do_md5_check = true ∧
      x.local_matches = true) :
    syncObject it = (0, true) ∧ totalDownloadCalls items = 0 := by
  have hobj : ∀ x : SyncItem, x.exists_local = true → x.do_md5_check = true →
      x.local_matches = true → syncObject x = (0, true) := by
    intro x hx1 hx2 hx3
    unfold syncObject should_skip_file
    rw [hx1, hx2, hx3]
    simp
  refine ⟨hobj it h1 h2 h3, ?_⟩
  unfold totalDownloadCalls
  induction items with
  | nil => rfl
  | cons x xs ih =>
    have hx := hall x (List.mem_cons_self x xs)
    have hxs : ∀ y ∈ xs, y.exists_local = true ∧ y.do_md5_check = true ∧
        y.local_matches = true :=
      fun y hy => hall y (List.mem_cons_of_mem x hy)
    simp only [List.map_cons, List.sum_cons, hobj x hx.1 hx.2.1 hx.2.2, ih hxs]

/-- An object already in sync with the remote digest. -/
def goodItem : SyncItem :=
  ⟨true, true, true, fun _ => AttemptOutcome.clientError⟩

/-- Instantiation of `synced_objects_not_downloaded` at `goodItem`. -/
theorem synced_objects_not_downloaded_witness :
    syncObject goodItem = (0, true) ∧ totalDownloadCalls [goodItem] = 0 :=
  synced_objects_not_downloaded goodItem [goodItem] rfl rfl rfl
    (by intro x hx; rw [List.mem_singleton.mp hx]; exact ⟨rfl, rfl, rfl⟩)

/-! ## Build pipeline side effects (build.py lines 249-324 and 397-485)

The observable mutating actions of the pipeline — file writes, external
command executions and artifact copies — are recorded as an effect trace.
Path joins are rendered with `/`, as on the posix hosts. -/

/-- One mutating action of the pipeline. -/
inductive Effect where
  | writeFileEff : String → String → Effect
  | runCmdEff : String → Effect
  | copyFileEff : String → String → Effect

/-- A single-quote character as a string (used inside the generated Matlab
command lines). -/
def sq : String :=
  String.singleton (Char.ofNat 39)

/-- `VERSION_FILE` (build.py line 40). -/
def VERSION_FILE : String :=
  ".standalone_canonical_version"

/-- `MATLAB_TOOLBOXES_TO_INCLUDE` (build.py lines 44-48). -/
def MATLAB_TOOLBOXES_TO_INCLUDE : List (String × String) :=
  [("signal", "signal"), ("stats", "stats"), ("images", "imuitools")]

/-- `ARCH_NAMES` (build.py lines 35-39). -/
def ARCH_NAMES (arch : String) : String :=
  if arch == "glnxa64" then "Linux64"
  else if arch == "maci64" then "Mac64"
  else if arch == "win64" then "Win64"
  else ""

/-- `create_java_call_sig_compile` (build.py lines 92-95). -/
def create_java_call_sig_compile (root_path : String) : String :=
  "cd " ++ (root_path ++ "/Java") ++ " && ant install && cd " ++ root_path

/-- `create_mcc_call_sig` (build.py lines 249-324): builds the mcc argument
string; on `win64` it writes the temporary script `tmpbuild.m` under the
repository root (a file-write effect performed while merely constructing the
call) and returns the run-script and delete-script commands, on the other
platforms it returns the single direct shell command and performs no write. -/
def create_mcc_call_sig (matlab_root_path mcc_path root_path dist_path
    output_name arch : String) (mfiles datafiles matpackages : List String) :
    List String × List Effect :=
  let mcc_arguments := String.intercalate " "
    ["-m", "-v", "-d " ++ dist_path, "-N", "-o " ++ output_name, "-v",
     "-w enable",
     String.intercalate " " mfiles,
     String.intercalate " " (datafiles.map (fun f => "-a " ++ f)),
     String.intercalate " " (matpackages.map (fun f => "-a " ++ f))]
  let extra_toolbox_paths := MATLAB_TOOLBOXES_TO_INCLUDE.map
    (fun x => matlab_root_path ++ "/toolbox/" ++ x.1 ++ "/" ++ x.2)
  if arch == "win64" then
    let tmpscript := root_path ++ "/tmpbuild.m"
    let cmdline :=
      if MATLAB_TOOLBOXES_TO_INCLUDE.isEmpty then
        "eval(\"" ++ "mcc" ++ " " ++ mcc_arguments ++ "\")"
      else
        let extra_requirements := String.intercalate " "
          (extra_toolbox_paths.map (fun x => "-I " ++ sq ++ x ++ sq))
        "eval(\"" ++ "mcc" ++ " " ++ mcc_arguments ++ " " ++
          extra_requirements ++ "\")"
    let external_call := "matlab -nodesktop -nosplash -wait -r \"run(" ++ sq ++
      tmpscript ++ sq ++ ");exit\""
    ([external_call, "del " ++ tmpscript],
     [Effect.writeFileEff tmpscript cmdline])
  else
    if MATLAB_TOOLBOXES_TO_INCLUDE.isEmpty then
      ([String.intercalate " " [mcc_path, mcc_arguments]], [])
    else
      let extra_requirements := String.intercalate " "
        (extra_toolbox_paths.map (fun x => "-I " ++ x))
      ([String.intercalate " " [mcc_path, mcc_arguments, extra_requirements]],
       [])

/-- The command-line options and discovered paths the `__main__` block works
with after `get_args`. -/
structure BuildArgs where
  arch : String
  check_repo_only : Bool
  dry_run : Bool
  build_java : Bool
  root_path : String
  dist_path : String
  matlab_root_path : String
  mcc_path : String

/-- The effect trace of the `__main__` block after the repository inspection
(build.py lines 424-485): exit at the repo-check flag; write the version
marker unless dry-running; gather the manifest (an uncaught failure there
ends the trace); construct the mcc call — on win64 this writes `tmpbuild.m`
whatever the flags say; run the java build and the mcc commands and copy the
artifact, each only when not dry-running. -/
def buildPipelineEffects (a : BuildArgs) (info : RepositoryState) (t : Tree) :
    List Effect :=
  if a.check_repo_only then []
  else
    let verEff : List Effect :=
      if a.dry_run then []
      else [Effect.writeFileEff VERSION_FILE (version info ++ "\n")]
    match get_required_files t info with
    | none => verEff
    | some (mfiles, datafiles, matpackages) =>
      let tmp_name := "imosToolbox_" ++ ARCH_NAMES a.arch
      let sig := create_mcc_call_sig a.matlab_root_path a.mcc_path a.root_path
        a.dist_path tmp_name a.arch mfiles datafiles matpackages
      let javaEffs : List Effect :=
        if a.build_java && !a.dry_run then
          [Effect.runCmdEff (create_java_call_sig_compile a.root_path)]
        else []
      let mccEffs : List Effect :=
        if a.dry_run then [] else sig.1.map Effect.runCmdEff
      let copyEffs : List Effect :=
        if a.dry_run then []
        else if a.arch == "win64" then
          [Effect.copyFileEff (a.dist_path ++ "/" ++ tmp_name ++ ".exe")
            (a.root_path ++ "/" ++ tmp_name ++ ".exe")]
        else
          [Effect.copyFileEff (a.dist_path ++ "/" ++ tmp_name)
            (a.root_path ++ "/" ++ tmp_name ++ ".bin")]
      verEff ++ sig.2 ++ javaEffs ++ mccEffs ++ copyEffs

/-- Dry-run invocation targeting win64. -/
def argsC10 : BuildArgs :=
  { arch := "win64", check_repo_only := false, dry_run := true,
    build_java := false, root_path := "/repo", dist_path := "/repo/dist",
    matlab_root_path := "/opt/MATLAB/R2018b",
    mcc_path := "/opt/MATLAB/R2018b/bin/mcc" }

/-- Dry-run invocation targeting glnxa64, java build requested. -/
def argsLinuxDry : BuildArgs :=
  { arch := "glnxa64", check_repo_only := false, dry_run := true,
    build_java := true, root_path := "/repo", dist_path := "/repo/dist",
    matlab_root_path := "/opt/MATLAB/R2018b",
    mcc_path := "/opt/MATLAB/R2018b/bin/mcc" }

/-- C10 counterexample: a win64 dry run over `tW3` still performs a file
write — `create_mcc_call_sig` writes the temporary build script
`/repo/tmpbuild.m` unconditionally, so the dry-run flag does not suppress
every mutating action. -/
theorem dry_run_writes_tmpscript :
    (buildPipelineEffects argsC10 infoE tW3).any
      (fun e => match e with
        | Effect.writeFileEff p _ => p == "/repo/tmpbuild.m"
        | _ => false) = true := by
  rfl

/-- C10 amended: with the dry-run flag set (and the repo-check flag clear)
the pipeline executes no external command, copies no artifact and does not
write the version marker — every effect in its trace is a write of the
temporary build script under the repository root — and on any architecture
other than win64 the trace is completely empty. -/
theorem dry_run_only_tmpscript (a : BuildArgs) (info : RepositoryState)
    (t : Tree) (hcro : a.check_repo_only = false) (hdry : a.dry_run = true) :
    (buildPipelineEffects a info t).all
      (fun e => match e with
        | Effect.writeFileEff p _ => p == a.root_path ++ "/tmpbuild.m"
        | _ => false) = true ∧
    (a.arch ≠ "win64" → buildPipelineEffects a info t = []) := by
  unfold buildPipelineEffects
  rw [hcro, hdry]
  simp only [Bool.false_eq_true, if_false, if_true, Bool.not_true,
    Bool.and_false, List.nil_append, List.append_nil]
  cases hg : get_required_files t info with
  | none => exact ⟨rfl, fun _ => rfl⟩
  | some triple =>
    obtain ⟨mfiles, datafiles, matpackages⟩ := triple
    unfold create_mcc_call_sig
    by_cases hw : a.arch == "win64"
    · rw [hw]
      constructor
      · simp
      · intro hne
        exact absurd (eq_of_beq hw) hne
    · rw [Bool.not_eq_true] at hw
      rw [hw]
      exact ⟨by simp [MATLAB_TOOLBOXES_TO_INCLUDE],
             fun _ => by simp [MATLAB_TOOLBOXES_TO_INCLUDE]⟩

/-- Instantiation of `dry_run_only_tmpscript` at the glnxa64 dry run. -/
theorem dry_run_only_tmpscript_witness :
    buildPipelineEffects argsLinuxDry infoE tW3 = [] :=
  (dry_run_only_tmpscript argsLinuxDry infoE tW3 rfl rfl).2 (by decide)

end Imos
